import Mathlib

/-!
# Verification of the polaris music-library index core (`src/index.rs`, `src/utils.rs`)

Shallow embedding of the catalog data model, the index builder, the reconciler
(`clean`), the update loop, and the read-query surface of `src/index.rs`.

Modelling conventions:
* Persisted rows (`Song`, `Directory`) and insertable rows (`NewSong`,
  `NewDirectory`) are Lean structures with the fields of the diesel models.
* The SQLite store is a `Catalog` holding the two tables as lists; SQL
  `WHERE` clauses become `List.filter`, `ORDER BY` becomes `List.mergeSort`
  (a stable sort, as SQLite's), `LIMIT` becomes `sqlLimit`.
* SQL `LIKE` is embedded by `likeMatch`: `%` matches any span, `_` any single
  character, and letter comparison is ASCII-case-insensitive, as in SQLite's
  default `LIKE`.  `x NOT LIKE pat` applied to a NULL `x` is SQL NULL, which a
  `WHERE` filter treats as not satisfied; `notLikeNullable` embeds this.
* Machine integers (`i32`, `i64`) are embedded as `Int`; none of the verified
  paths can overflow them.
* Fallible operations return `Option` or `Except`.
* Strings are compared through their character lists so that all definitions
  reduce inside the kernel.
-/

namespace Polaris

/-! ## SQL LIKE -/

/-- Helper for the `%` wildcard: does `p` accept some suffix of the input? -/
def likeSkip (p : List Char → Bool) : List Char → Bool
  | [] => p []
  | c :: s => p (c :: s) || likeSkip p s

/-- SQLite `LIKE` over character lists: `%` matches any span, `_` any single
character, and plain characters compare ASCII-case-insensitively. -/
def likeChars : List Char → List Char → Bool
  | [], s => s.isEmpty
  | '%' :: ps, s => likeSkip (likeChars ps) s
  | '_' :: ps, s =>
    match s with
    | [] => false
    | _ :: s2 => likeChars ps s2
  | p :: ps, s =>
    match s with
    | [] => false
    | c :: s2 => (p.toLower == c.toLower) && likeChars ps s2

/-- Embedding of `s LIKE pat` in SQLite's default (ASCII-case-insensitive) semantics. -/
def likeMatch (pat s : String) : Bool := likeChars pat.data s.data

/-- Embedding of `x NOT LIKE pat` on a nullable column: for a NULL operand the comparison is
SQL NULL, which a `WHERE` filter treats as not satisfied. -/
def notLikeNullable (pat : String) : Option String → Bool
  | none => false
  | some s => !(likeMatch pat s)

/-- Embedding of `x LIKE pat` on a nullable column: NULL operand yields SQL NULL, treated as
not satisfied by the filter (in an `OR` chain only `true` operands count). -/
def likeNullable (pat : String) : Option String → Bool
  | none => false
  | some s => likeMatch pat s

/-- Binary (byte-wise) string order on character lists: SQLite's default
`BINARY` collation used by plain `ORDER BY path`. -/
def charListLe : List Char → List Char → Bool
  | [], _ => true
  | _ :: _, [] => false
  | a :: as, b :: bs =>
    if a.toNat = b.toNat then charListLe as bs else decide (a.toNat < b.toNat)

/-- SQL `LIMIT count` with diesel's `i64` count: SQLite treats a negative
`LIMIT` as "no limit". -/
def sqlLimit {α : Type} (count : Int) (l : List α) : List α :=
  if count < 0 then l else l.take count.toNat

/-! ## Data model (`struct Song`, `struct Directory`, `enum CollectionFile`,
`struct NewSong`, `struct NewDirectory`) -/

structure Song where
  id : Int
  path : String
  parent : String
  track_number : Option Int
  disc_number : Option Int
  title : Option String
  artist : Option String
  album_artist : Option String
  year : Option Int
  album : Option String
  artwork : Option String
  duration : Option Int
deriving DecidableEq, Repr

structure Directory where
  id : Int
  path : String
  parent : Option String
  artist : Option String
  year : Option Int
  album : Option String
  artwork : Option String
  date_added : Int
deriving DecidableEq, Repr

inductive CollectionFile where
  | Directory (d : Polaris.Directory)
  | Song (s : Polaris.Song)
deriving DecidableEq, Repr

structure NewSong where
  path : String
  parent : String
  track_number : Option Int
  disc_number : Option Int
  title : Option String
  artist : Option String
  album_artist : Option String
  year : Option Int
  album : Option String
  artwork : Option String
  duration : Option Int
deriving DecidableEq, Repr

structure NewDirectory where
  path : String
  parent : Option String
  artist : Option String
  year : Option Int
  album : Option String
  artwork : Option String
  date_added : Int
deriving DecidableEq, Repr

/-- The two tables of the catalog store. -/
structure Catalog where
  songs : List Song
  directories : List Directory
deriving DecidableEq, Repr

/-! ## VFS mapper

Modelled from the spec: the VFS mapper is part of this repository but its
source file (`vfs.rs`) is not under `src/`; only `index.rs` (its caller) is.
Per spec §4.A a mount point is a pair *(name, real root path)* and the mapper
owns an ordered mapping from name to real root. -/

structure VFS where
  mounts : List (String × String)
deriving DecidableEq, Repr

/-- Modelled from the spec: `virtual_to_real(vp)` "splits `vp` at its first
component, looks up the corresponding real root, appends the remainder. Fails
with `UnknownMount` (here `none`) if the first component matches no mount." -/
def virtual_to_real (vfs : VFS) (vp : String) : Option String :=
  let first := String.mk (vp.data.takeWhile (fun c => !(c == '/')))
  let remainder := (vp.data.dropWhile (fun c => !(c == '/'))).drop 1
  (vfs.mounts.find? (fun m => m.1 == first)).map
    (fun m => if remainder.isEmpty then m.2 else m.2 ++ "/" ++ String.mk remainder)

/-- Modelled from the spec: `real_to_virtual(rp)` "scans mounts, returns
`name / rp.strip_prefix(real_root)` for the first mount whose root is a prefix
of `rp`. Fails with `NotUnderMount` (here `none`) otherwise." -/
def real_to_virtual (vfs : VFS) (rp : String) : Option String :=
  (vfs.mounts.find? (fun m => m.2.data.isPrefixOf rp.data)).map
    (fun m =>
      let rest := (rp.data.drop m.2.data.length).dropWhile (fun c => c == '/')
      if rest.isEmpty then m.1 else m.1 ++ "/" ++ String.mk rest)

/-! ## Result virtualization (`virtualize_song`, `virtualize_directory`) -/

/-- Function `virtualize_song`: replace `path` by its virtual translation (failure drops
the row), then translate `artwork` if present (failure nulls the field). -/
def virtualize_song (vfs : VFS) (song : Song) : Option Song :=
  match real_to_virtual vfs song.path with
  | none => none
  | some p =>
    let song := { song with path := p }
    match song.artwork with
    | none => some song
    | some artwork_path => some { song with artwork := real_to_virtual vfs artwork_path }

/-- Function `virtualize_directory`: same discipline as `virtualize_song`. -/
def virtualize_directory (vfs : VFS) (directory : Directory) : Option Directory :=
  match real_to_virtual vfs directory.path with
  | none => none
  | some p =>
    let directory := { directory with path := p }
    match directory.artwork with
    | none => some directory
    | some artwork_path =>
      some { directory with artwork := real_to_virtual vfs artwork_path }

/-! ## Command loop (`enum Command`, `update_loop`) -/

inductive Command where
  | REINDEX
  | EXIT
deriving DecidableEq, Repr

/-- Function `update_loop`, embedded over the channel's observable history: the input is
the list of receive batches, each pairing the command returned by the blocking
`recv` with the commands drained by `try_recv` before `Empty`; after the last
batch the channel is disconnected (`recv` errors).  The result counts the
reconcile-then-populate scans run (`update(db)` calls).

Faithful to the source: the value returned by the blocking `recv` is discarded
without inspection (`if command_buffer.receiver.recv().is_err() { return; }`);
only the drain loop pattern-matches on `Command::EXIT`. -/
def update_loop : List (Command × List Command) → Nat
  | [] => 0
  | (_head, pending) :: rest =>
    if pending.contains Command.EXIT then 0 else 1 + update_loop rest

/-! ## Index builder (`IndexBuilder`, `flush_songs`, `flush_directories`,
`push_song`, `push_directory`) -/

def INDEX_BUILDING_INSERT_BUFFER_SIZE : Nat := 1000
def INDEX_BUILDING_CLEAN_BUFFER_SIZE : Nat := 500

/-- The builder's two pending-row buffers.  `Vec::with capacity 1000` via
`reserve_exact(INDEX_BUILDING_INSERT_BUFFER_SIZE)`; the store connection and
the album-art regex are abstracted away (the former as the `insert` parameters
of the operations below). -/
structure IndexBuilder where
  new_songs : List NewSong
  new_directories : List NewDirectory
deriving Repr

/-- Function `flush_songs`: run one store transaction inserting the whole buffer
(abstracted as `insert`), then clear the buffer; a transaction failure
propagates. -/
def flush_songs (insert : List NewSong → Except String Unit) (b : IndexBuilder) :
    Except String IndexBuilder :=
  match insert b.new_songs with
  | .error e => .error e
  | .ok _ => .ok { b with new_songs := [] }

/-- Function `flush_directories`: directory counterpart of `flush_songs`. -/
def flush_directories (insert : List NewDirectory → Except String Unit)
    (b : IndexBuilder) : Except String IndexBuilder :=
  match insert b.new_directories with
  | .error e => .error e
  | .ok _ => .ok { b with new_directories := [] }

/-- Function `push_song`: flush first when the buffer is at capacity
(`new_songs.len() >= new_songs.capacity()`), propagating a flush failure via
`?`; then push. -/
def push_song (insert : List NewSong → Except String Unit) (b : IndexBuilder)
    (song : NewSong) : Except String IndexBuilder :=
  if INDEX_BUILDING_INSERT_BUFFER_SIZE ≤ b.new_songs.length then
    match flush_songs insert b with
    | .error e => .error e
    | .ok b2 => .ok { b2 with new_songs := b2.new_songs ++ [song] }
  else
    .ok { b with new_songs := b.new_songs ++ [song] }

/-- Function `push_directory`: directory counterpart of `push_song`. -/
def push_directory (insert : List NewDirectory → Except String Unit)
    (b : IndexBuilder) (directory : NewDirectory) : Except String IndexBuilder :=
  if INDEX_BUILDING_INSERT_BUFFER_SIZE ≤ b.new_directories.length then
    match flush_directories insert b with
    | .error e => .error e
    | .ok b2 => .ok { b2 with new_directories := b2.new_directories ++ [directory] }
  else
    .ok { b with new_directories := b.new_directories ++ [directory] }

/-! ## `populate_directory`

The filesystem walk of one directory is embedded over the observed `read_dir`
stream: a `DirEntry` is a per-entry read error, a subdirectory, or a file
together with the result of `metadata::read` (`none` models a tag-read
failure, which skips the file).  The artwork lookup and the `date_added`
timestamp are passed in as the values the source computed from the
filesystem.  The `push_song`/`push_directory` buffering is verified
separately; here the pushed rows are returned as lists. -/

structure Tags where
  disc_number : Option Int
  track_number : Option Int
  title : Option String
  duration : Option Int
  artist : Option String
  album_artist : Option String
  album : Option String
  year : Option Int
deriving DecidableEq, Repr

inductive DirEntry where
  /-- Entry where `read_dir` yielded `Err`: the source logs and breaks out of the loop. -/
  | readErr
  | subdir (path : String)
  | file (path : String) (tags : Option Tags)
deriving DecidableEq, Repr

/-- The loop-local state of `populate_directory`'s enumeration pass: the three
aggregate candidates with their inconsistency flags, the collected
subdirectories, and the songs pushed so far. -/
structure DirScan where
  directory_album : Option String
  directory_year : Option Int
  directory_artist : Option String
  inconsistent_directory_album : Bool
  inconsistent_directory_year : Bool
  inconsistent_directory_artist : Bool
  sub_directories : List String
  songs : List NewSong
deriving DecidableEq, Repr

/-- The `for file in fs::read_dir(path)` loop of `populate_directory`. -/
def scan_children (path_string : String) (artwork : Option String)
    (acc : DirScan) : List DirEntry → DirScan
  | [] => acc
  | .readErr :: _ => acc
  | .subdir p :: rest =>
    scan_children path_string artwork
      { acc with sub_directories := acc.sub_directories ++ [p] } rest
  | .file file_path tagsOpt :: rest =>
    match tagsOpt with
    | none => scan_children path_string artwork acc rest
    | some tags =>
      let acc :=
        if tags.year.isSome then
          { acc with
            inconsistent_directory_year :=
              acc.inconsistent_directory_year ||
                (acc.directory_year.isSome && (acc.directory_year != tags.year)),
            directory_year := tags.year }
        else acc
      let acc :=
        if tags.album.isSome then
          { acc with
            inconsistent_directory_album :=
              acc.inconsistent_directory_album ||
                (acc.directory_album.isSome && (acc.directory_album != tags.album)),
            directory_album := tags.album }
        else acc
      let acc :=
        if tags.album_artist.isSome then
          { acc with
            inconsistent_directory_artist :=
              acc.inconsistent_directory_artist ||
                (acc.directory_artist.isSome &&
                  (acc.directory_artist != tags.album_artist)),
            directory_artist := tags.album_artist }
        else if tags.artist.isSome then
          { acc with
            inconsistent_directory_artist :=
              acc.inconsistent_directory_artist ||
                (acc.directory_artist.isSome && (acc.directory_artist != tags.artist)),
            directory_artist := tags.artist }
        else acc
      let song : NewSong :=
        { path := file_path
          parent := path_string
          disc_number := tags.disc_number
          track_number := tags.track_number
          title := tags.title
          duration := tags.duration
          artist := tags.artist
          album_artist := tags.album_artist
          album := tags.album
          year := tags.year
          artwork := artwork }
      scan_children path_string artwork { acc with songs := acc.songs ++ [song] } rest

/-- Function `populate_directory` restricted to one directory (recursion over
subdirectories is driven by the caller): enumerate the children, collapse each
aggregate whose inconsistency flag is set, and emit the pushed songs together
with the `NewDirectory` row. -/
def populate_directory (parent : Option String) (path_string : String)
    (artwork : Option String) (created : Int) (entries : List DirEntry) :
    List NewSong × NewDirectory :=
  let s := scan_children path_string artwork
    { directory_album := none
      directory_year := none
      directory_artist := none
      inconsistent_directory_album := false
      inconsistent_directory_year := false
      inconsistent_directory_artist := false
      sub_directories := []
      songs := [] } entries
  let directory_year := if s.inconsistent_directory_year then none else s.directory_year
  let directory_album := if s.inconsistent_directory_album then none else s.directory_album
  let directory_artist :=
    if s.inconsistent_directory_artist then none else s.directory_artist
  (s.songs,
    { path := path_string
      parent := parent
      artwork := artwork
      album := directory_album
      artist := directory_artist
      year := directory_year
      date_added := created })

/-- Reference form of the per-field aggregation loop: starting from candidate
`c` and inconsistency flag `inc`, fold the supplied (non-null) values in
enumeration order: a supplied value differing from a non-null candidate sets
the flag; the candidate is always overwritten. -/
def collapse {α : Type} [DecidableEq α] : Option α → Bool → List α → Option α × Bool
  | c, inc, [] => (c, inc)
  | c, inc, v :: vs => collapse (some v) (inc || (c.isSome && (c != some v))) vs

/-- The aggregate a directory ends up with for one field, given the supplied
values of its child songs in order: the final candidate, zeroed when the
inconsistency flag was set. -/
def aggValue {α : Type} [DecidableEq α] (vs : List α) : Option α :=
  let r := collapse (none : Option α) false vs
  if r.2 then none else r.1

/-- The songs `populate_directory` pushes for a child-entry stream: one
`NewSong` per file whose tags were readable, in enumeration order, stopping at
the first `read_dir` error. -/
def emittedSongs (path_string : String) (artwork : Option String) :
    List DirEntry → List NewSong
  | [] => []
  | .readErr :: _ => []
  | .subdir _ :: rest => emittedSongs path_string artwork rest
  | .file _ none :: rest => emittedSongs path_string artwork rest
  | .file file_path (some tags) :: rest =>
    { path := file_path
      parent := path_string
      disc_number := tags.disc_number
      track_number := tags.track_number
      title := tags.title
      duration := tags.duration
      artist := tags.artist
      album_artist := tags.album_artist
      album := tags.album
      year := tags.year
      artwork := artwork } :: emittedSongs path_string artwork rest

/-! ## Reconciler (`clean`) -/

/-- Rust `slice::chunks(n)`: groups of `n`, last group possibly shorter.  (The
source only calls it with `n = 500`; `chunks` rejects `n = 0`, here the
recursion simply still terminates.) -/
def chunksOf {α : Type} (n : Nat) : List α → List (List α)
  | [] => []
  | x :: xs => (x :: xs).take n :: chunksOf n (xs.drop (n - 1))
termination_by l => l.length
decreasing_by
  simp only [List.length_drop, List.length_cons]
  omega

/-- The outcome of `clean`: the catalog after the sweep, plus the chunks of the
two delete statements actually issued (one transaction per chunk). -/
structure CleanResult where
  catalog : Catalog
  song_chunks : List (List String)
  directory_chunks : List (List String)
deriving Repr

/-- Function `clean`: load all song paths, keep those whose real path no longer exists
or no longer resolves through the VFS, delete them in chunks of
`INDEX_BUILDING_CLEAN_BUFFER_SIZE` with `path IN (chunk)` predicates; then the
same for directories.  The filesystem existence check is the `fsExists`
parameter. -/
def clean (fsExists : String → Bool) (vfs : VFS) (db : Catalog) : CleanResult :=
  let all_songs := db.songs.map (fun s => s.path)
  let missing_songs := all_songs.filter
    (fun p => !(fsExists p) || (real_to_virtual vfs p).isNone)
  let song_chunks := chunksOf INDEX_BUILDING_CLEAN_BUFFER_SIZE missing_songs
  let songs2 := song_chunks.foldl
    (fun acc chunk => acc.filter (fun s => !(chunk.contains s.path))) db.songs
  let all_directories := db.directories.map (fun d => d.path)
  let missing_directories := all_directories.filter
    (fun p => !(fsExists p) || (real_to_virtual vfs p).isNone)
  let directory_chunks := chunksOf INDEX_BUILDING_CLEAN_BUFFER_SIZE missing_directories
  let directories2 := directory_chunks.foldl
    (fun acc chunk => acc.filter (fun d => !(chunk.contains d.path))) db.directories
  { catalog := { songs := songs2, directories := directories2 }
    song_chunks := song_chunks
    directory_chunks := directory_chunks }

/-! ## Read queries (`flatten`, `get_recent_albums`, `search`, `get_song`) -/

/-- The branch condition of `flatten`: `virtual_path.parent() != None`.  Rust
`Path::parent` is `None` exactly for the empty path and the filesystem root. -/
def pathHasParent (vp : String) : Bool := !(vp == "") && !(vp == "/")

/-- Function `flatten(vp)`: when `vp` has a parent component, translate and select the
songs with `path LIKE real || '%'`; otherwise select all songs.  Both branches
order by `path` under the binary collation.  A translation failure
propagates (`none`). -/
def flatten (vfs : VFS) (db : Catalog) (virtual_path : String) :
    Option (List Song) :=
  if pathHasParent virtual_path then
    match virtual_to_real vfs virtual_path with
    | none => none
    | some real_path =>
      let like_path := real_path ++ "%"
      let real_songs := (db.songs.filter (fun s => likeMatch like_path s.path)).mergeSort
        (fun a b => charListLe a.path.data b.path.data)
      some (real_songs.filterMap (virtualize_song vfs))
  else
    let real_songs := db.songs.mergeSort (fun a b => charListLe a.path.data b.path.data)
    some (real_songs.filterMap (virtualize_song vfs))

/-- Function `get_recent_albums(count)`: directories with a non-null `album`, ordered by
`date_added` descending, limited to `count`, then virtualized. -/
def get_recent_albums (vfs : VFS) (db : Catalog) (count : Int) : List Directory :=
  let real_directories := sqlLimit count
    ((db.directories.filter (fun d => d.album.isSome)).mergeSort
      (fun a b => decide (b.date_added ≤ a.date_added)))
  real_directories.filterMap (virtualize_directory vfs)

/-- Function `search(q)`: directories with `path LIKE '%q%' AND parent NOT LIKE '%q%'`,
then songs with any of `path/title/album/artist/album_artist LIKE '%q%'` and
`parent NOT LIKE '%q%'`; each set virtualized, directories first. -/
def search (vfs : VFS) (db : Catalog) (query : String) : List CollectionFile :=
  let like_test := "%" ++ query ++ "%"
  let real_directories := db.directories.filter
    (fun d => likeMatch like_test d.path && notLikeNullable like_test d.parent)
  let virtual_directories := real_directories.filterMap (virtualize_directory vfs)
  let real_songs := db.songs.filter
    (fun s =>
      (likeMatch like_test s.path || likeNullable like_test s.title ||
        likeNullable like_test s.album || likeNullable like_test s.artist ||
        likeNullable like_test s.album_artist) &&
      !(likeMatch like_test s.parent))
  let virtual_songs := real_songs.filterMap (virtualize_song vfs)
  virtual_directories.map CollectionFile.Directory ++
    virtual_songs.map CollectionFile.Song

inductive QueryError where
  /-- Error case: `virtual_to_real` found no mount for the first component. -/
  | unknownMount
  /-- Error case: `get_result` found no song row at the real path. -/
  | missingRow
  /-- Error case: `virtualize_song` failed on the retrieved song ("Missing VFS mapping"). -/
  | missingMapping
deriving DecidableEq, Repr

/-- Function `get_song(vp)`: translate the virtual path, fetch the unique song at the
real path, virtualize it; each failure propagates as a `QueryError`. -/
def get_song (vfs : VFS) (db : Catalog) (virtual_path : String) :
    Except QueryError Song :=
  match virtual_to_real vfs virtual_path with
  | none => .error .unknownMount
  | some real_path =>
    match db.songs.find? (fun s => s.path == real_path) with
    | none => .error .missingRow
    | some real_song =>
      match virtualize_song vfs real_song with
      | some s => .ok s
      | none => .error .missingMapping

/-! ## Concrete instances used by witnesses and counterexamples -/

/-- A one-mount VFS: virtual name `root`, real root `r`. -/
def vfsW : VFS := { mounts := [("root", "r")] }

/-- A song outside every mount root. -/
def songNoMountW : Song :=
  { id := 1, path := "x", parent := "", track_number := none, disc_number := none
    title := none, artist := none, album_artist := none, year := none
    album := none, artwork := none, duration := none }

/-- A song under the mount whose artwork path is outside every mount. -/
def songArtW : Song :=
  { id := 2, path := "r/a.mp3", parent := "r", track_number := none
    disc_number := none, title := some "A", artist := none, album_artist := none
    year := none, album := none, artwork := some "z", duration := none }

/-- A directory outside every mount root. -/
def dirNoMountW : Directory :=
  { id := 1, path := "x", parent := none, artist := none, year := none
    album := none, artwork := none, date_added := 0 }

/-- A directory under the mount whose artwork path is outside every mount. -/
def dirArtW : Directory :=
  { id := 2, path := "r/d", parent := some "r", artist := none, year := none
    album := some "A", artwork := some "z", date_added := 0 }

/-- The catalog holding just `songArtW`. -/
def dbSongArtW : Catalog := { songs := [songArtW], directories := [] }

/-- A sample `NewSong` row. -/
def newSongW : NewSong :=
  { path := "r/b.mp3", parent := "r", track_number := none, disc_number := none
    title := none, artist := none, album_artist := none, year := none
    album := none, artwork := none, duration := none }

/-- A sample `NewDirectory` row. -/
def newDirectoryW : NewDirectory :=
  { path := "r/d", parent := some "r", artist := none, year := none
    album := none, artwork := none, date_added := 0 }

/-- An empty builder. -/
def builderEmptyW : IndexBuilder := { new_songs := [], new_directories := [] }

/-- A builder whose song buffer is exactly at capacity. -/
def builderFullSongsW : IndexBuilder :=
  { new_songs := List.replicate 1000 newSongW, new_directories := [] }

/-- A builder whose directory buffer is exactly at capacity. -/
def builderFullDirectoriesW : IndexBuilder :=
  { new_songs := [], new_directories := List.replicate 1000 newDirectoryW }

/-- A store insert that always fails. -/
def insertSongsFailW : List NewSong → Except String Unit := fun _ => .error "boom"

/-- A store insert that always succeeds. -/
def insertSongsOkW : List NewSong → Except String Unit := fun _ => .ok ()

/-- A directory-store insert that always fails. -/
def insertDirectoriesFailW : List NewDirectory → Except String Unit :=
  fun _ => .error "boom"

/-- A directory-store insert that always succeeds. -/
def insertDirectoriesOkW : List NewDirectory → Except String Unit := fun _ => .ok ()

/-- Tags supplying album `A`, year 2000. -/
def tagsAW : Tags :=
  { disc_number := none, track_number := none, title := some "t1", duration := none
    artist := some "X", album_artist := none, album := some "A", year := some 2000 }

/-- Tags supplying album `B`, year 2000, and an `album_artist` overriding the
artist contribution. -/
def tagsBW : Tags :=
  { disc_number := none, track_number := none, title := some "t2", duration := none
    artist := some "X", album_artist := some "Y", album := some "B", year := some 2000 }

/-- A child stream whose two songs disagree on `album` (`A` vs `B`) and on the
artist contribution (`X` vs `Y`) but agree on `year` (2000). -/
def entriesW : List DirEntry :=
  [DirEntry.file "r/d/1.mp3" (some tagsAW), DirEntry.subdir "r/d/sub",
    DirEntry.file "r/d/skip.txt" none, DirEntry.file "r/d/2.mp3" (some tagsBW)]

/-- A song row whose real path has been removed from the filesystem. -/
def songGoneW : Song :=
  { id := 3, path := "r/gone.mp3", parent := "r", track_number := none
    disc_number := none, title := none, artist := none, album_artist := none
    year := none, album := none, artwork := none, duration := none }

/-- Catalog for the `clean` witness: one live song, one vanished song, one
live directory. -/
def dbCleanW : Catalog :=
  { songs := [songArtW, songGoneW], directories := [dirArtW] }

/-- Filesystem for the `clean` witness: everything exists except the vanished
song's path. -/
def fsExistsW : String → Bool := fun p => !(p == "r/gone.mp3")

/-- Two album directories already in descending `date_added` order. -/
def dirRecentAW : Directory :=
  { id := 4, path := "r/a", parent := some "r", artist := none, year := none
    album := some "A", artwork := none, date_added := 5 }

def dirRecentBW : Directory :=
  { id := 5, path := "r/b", parent := some "r", artist := none, year := none
    album := some "B", artwork := none, date_added := 3 }

def dbRecentW : Catalog := { songs := [], directories := [dirRecentAW, dirRecentBW] }

/-- The mount-root directory row for the `search` counterexample: NULL parent,
path matching the query. -/
def dirMountRootW : Directory :=
  { id := 6, path := "rootReal", parent := none, artist := none, year := none
    album := none, artwork := none, date_added := 0 }

def vfsSearchW : VFS := { mounts := [("root", "rootReal")] }

def dbSearchW : Catalog := { songs := [], directories := [dirMountRootW] }

/-- The song for the `flatten` counterexample: its real path is *not* a
string-prefix extension of `root/My_Album`, but matches it under SQL `LIKE`
semantics (`_` matches the `x`). -/
def songLikeW : Song :=
  { id := 7, path := "root/MyxAlbum/a.mp3", parent := "root/MyxAlbum"
    track_number := none, disc_number := none, title := none, artist := none
    album_artist := none, year := none, album := none, artwork := none
    duration := none }

/-- A mount whose virtual name and real root coincide, so translation is the
identity on paths beneath it. -/
def vfsLikeW : VFS := { mounts := [("root", "root")] }

def dbLikeW : Catalog := { songs := [songLikeW], directories := [] }

end Polaris

namespace Polaris

/-! ## Claim theorems -/

/-- Claim C1 (code bug evidence): the update loop does *not* terminate when the
`Exit` command is the one returned by the blocking receive — the source
discards that command unexamined, so a batch whose head is `EXIT` with nothing
further pending still runs one reconcile-then-populate scan (first conjunct);
an `Exit` among the drained pending commands does terminate the loop with no
scan for that batch (second conjunct). -/
theorem update_loop_exit_at_head_still_scans :
    update_loop [(Command.EXIT, [])] = 1 ∧
    update_loop [(Command.REINDEX, [Command.EXIT])] = 0 :=
  ⟨rfl, rfl⟩

/-- Claim C4: a row whose `path` fails `real_to_virtual` is dropped by
`virtualize_song` / `virtualize_directory` (and hence omitted from every bulk
query result, all of which are `filterMap`s of these functions); a row whose
`path` translates but whose `artwork` fails translation is kept with `artwork`
nulled and every other field unchanged except the virtualized `path`. -/
theorem virtualize_drops_path_nulls_artwork (vfs : VFS) :
    (∀ s : Song, real_to_virtual vfs s.path = none → virtualize_song vfs s = none) ∧
    (∀ (s : Song) (vp : String), real_to_virtual vfs s.path = some vp →
      ∀ a : String, s.artwork = some a → real_to_virtual vfs a = none →
      virtualize_song vfs s = some { s with path := vp, artwork := none }) ∧
    (∀ d : Directory, real_to_virtual vfs d.path = none →
      virtualize_directory vfs d = none) ∧
    (∀ (d : Directory) (vp : String), real_to_virtual vfs d.path = some vp →
      ∀ a : String, d.artwork = some a → real_to_virtual vfs a = none →
      virtualize_directory vfs d = some { d with path := vp, artwork := none }) := by
  refine ⟨fun s h => ?_, fun s vp h a ha hn => ?_, fun d h => ?_,
    fun d vp h a ha hn => ?_⟩
  · simp [virtualize_song, h]
  · simp [virtualize_song, h, ha, hn]
  · simp [virtualize_directory, h]
  · simp [virtualize_directory, h, ha, hn]

/-- Witness for Claim C4 at concrete inputs: `songNoMountW`/`dirNoMountW` have
untranslatable paths and are dropped; `songArtW`/`dirArtW` translate but their
artwork `"z"` does not, so they survive with `artwork := none`. -/
theorem virtualize_drops_path_nulls_artwork_witness :
    virtualize_song vfsW songNoMountW = none ∧
    virtualize_song vfsW songArtW =
      some { songArtW with path := "root/a.mp3", artwork := none } ∧
    virtualize_directory vfsW dirNoMountW = none ∧
    virtualize_directory vfsW dirArtW =
      some { dirArtW with path := "root/d", artwork := none } :=
  ⟨(virtualize_drops_path_nulls_artwork vfsW).1 songNoMountW (by decide),
   (virtualize_drops_path_nulls_artwork vfsW).2.1 songArtW "root/a.mp3" (by decide)
     "z" (by decide) (by decide),
   (virtualize_drops_path_nulls_artwork vfsW).2.2.1 dirNoMountW (by decide),
   (virtualize_drops_path_nulls_artwork vfsW).2.2.2 dirArtW "root/d" (by decide)
     "z" (by decide) (by decide)⟩

/-- Claim C10: `get_song` never fails because of artwork: when the virtual path
translates, the row is found, and the song's real path virtualizes, a
non-translatable artwork path leaves `get_song` succeeding with `artwork`
nulled. -/
theorem get_song_ignores_artwork_failure (vfs : VFS) (db : Catalog)
    (vp rp : String) (s : Song) (pv a : String)
    (h1 : virtual_to_real vfs vp = some rp)
    (h2 : db.songs.find? (fun x => x.path == rp) = some s)
    (h3 : real_to_virtual vfs s.path = some pv)
    (h4 : s.artwork = some a)
    (h5 : real_to_virtual vfs a = none) :
    get_song vfs db vp = .ok { s with path := pv, artwork := none } := by
  simp [get_song, h1, h2, virtualize_song, h3, h4, h5]

/-- Witness for Claim C10: in the one-song catalog `dbSongArtW`, the song's
artwork `"z"` fails translation, yet `get_song` on `"root/a.mp3"` succeeds
with `artwork := none`. -/
theorem get_song_ignores_artwork_failure_witness :
    get_song vfsW dbSongArtW "root/a.mp3" =
      .ok { songArtW with path := "root/a.mp3", artwork := none } :=
  get_song_ignores_artwork_failure vfsW dbSongArtW "root/a.mp3" "r/a.mp3"
    songArtW "root/a.mp3" "z" (by decide) (by decide) (by decide) (by decide)
    (by decide)

/-- Claim C6: the pending-row buffers are bounded by the capacity 1000: a push on
a buffer below capacity appends without flushing; a push on a full buffer first
flushes the whole buffer in one store transaction, propagating a transaction
failure as the push's error and leaving only the pushed row on success; hence
a buffer that respects the bound still respects it after any successful push. -/
theorem push_song_buffer_bound
    (insert : List NewSong → Except String Unit)
    (insertD : List NewDirectory → Except String Unit)
    (b : IndexBuilder) (song : NewSong) (directory : NewDirectory) :
    (b.new_songs.length < INDEX_BUILDING_INSERT_BUFFER_SIZE →
      push_song insert b song = .ok { b with new_songs := b.new_songs ++ [song] }) ∧
    (∀ e, INDEX_BUILDING_INSERT_BUFFER_SIZE ≤ b.new_songs.length →
      insert b.new_songs = .error e → push_song insert b song = .error e) ∧
    (INDEX_BUILDING_INSERT_BUFFER_SIZE ≤ b.new_songs.length →
      insert b.new_songs = .ok () →
      push_song insert b song = .ok { b with new_songs := [song] }) ∧
    (∀ b2, b.new_songs.length ≤ INDEX_BUILDING_INSERT_BUFFER_SIZE →
      push_song insert b song = .ok b2 →
      b2.new_songs.length ≤ INDEX_BUILDING_INSERT_BUFFER_SIZE) ∧
    (b.new_directories.length < INDEX_BUILDING_INSERT_BUFFER_SIZE →
      push_directory insertD b directory =
        .ok { b with new_directories := b.new_directories ++ [directory] }) ∧
    (∀ e, INDEX_BUILDING_INSERT_BUFFER_SIZE ≤ b.new_directories.length →
      insertD b.new_directories = .error e →
      push_directory insertD b directory = .error e) ∧
    (INDEX_BUILDING_INSERT_BUFFER_SIZE ≤ b.new_directories.length →
      insertD b.new_directories = .ok () →
      push_directory insertD b directory =
        .ok { b with new_directories := [directory] }) ∧
    (∀ b2, b.new_directories.length ≤ INDEX_BUILDING_INSERT_BUFFER_SIZE →
      push_directory insertD b directory = .ok b2 →
      b2.new_directories.length ≤ INDEX_BUILDING_INSERT_BUFFER_SIZE) := by
  refine ⟨fun hlt => ?_, fun e hge he => ?_, fun hge hok => ?_,
    fun b2 hle hok => ?_, fun hlt => ?_, fun e hge he => ?_, fun hge hok => ?_,
    fun b2 hle hok => ?_⟩
  · simp [push_song, Nat.not_le.mpr hlt]
  · simp [push_song, hge, flush_songs, he]
  · simp [push_song, hge, flush_songs, hok]
  · by_cases hge : INDEX_BUILDING_INSERT_BUFFER_SIZE ≤ b.new_songs.length
    · rcases hi : insert b.new_songs with e | u
      · simp [push_song, hge, flush_songs, hi] at hok
      · simp [push_song, hge, flush_songs, hi] at hok
        subst hok
        simp [INDEX_BUILDING_INSERT_BUFFER_SIZE]
    · simp [push_song, hge] at hok
      subst hok
      simp only [List.length_append, List.length_cons, List.length_nil]
      omega
  · simp [push_directory, Nat.not_le.mpr hlt]
  · simp [push_directory, hge, flush_directories, he]
  · simp [push_directory, hge, flush_directories, hok]
  · by_cases hge : INDEX_BUILDING_INSERT_BUFFER_SIZE ≤ b.new_directories.length
    · rcases hi : insertD b.new_directories with e | u
      · simp [push_directory, hge, flush_directories, hi] at hok
      · simp [push_directory, hge, flush_directories, hi] at hok
        subst hok
        simp [INDEX_BUILDING_INSERT_BUFFER_SIZE]
    · simp [push_directory, hge] at hok
      subst hok
      simp only [List.length_append, List.length_cons, List.length_nil]
      omega

/-- Witness for Claim C6: a push on an empty buffer appends; a push on the
1000-row buffer propagates the failing transaction's error, and with a working
store leaves exactly the pushed row buffered. -/
theorem push_song_buffer_bound_witness :
    push_song insertSongsOkW builderEmptyW newSongW =
      .ok { builderEmptyW with new_songs := [newSongW] } ∧
    push_song insertSongsFailW builderFullSongsW newSongW = .error "boom" ∧
    push_song insertSongsOkW builderFullSongsW newSongW =
      .ok { builderFullSongsW with new_songs := [newSongW] } ∧
    push_directory insertDirectoriesFailW builderFullDirectoriesW newDirectoryW =
      .error "boom" ∧
    push_directory insertDirectoriesOkW builderEmptyW newDirectoryW =
      .ok { builderEmptyW with new_directories := [newDirectoryW] } :=
  ⟨(push_song_buffer_bound insertSongsOkW insertDirectoriesOkW builderEmptyW
      newSongW newDirectoryW).1 (by decide),
   (push_song_buffer_bound insertSongsFailW insertDirectoriesOkW builderFullSongsW
      newSongW newDirectoryW).2.1 "boom"
      (by simp only [builderFullSongsW, List.length_replicate, INDEX_BUILDING_INSERT_BUFFER_SIZE, le_refl]) rfl,
   (push_song_buffer_bound insertSongsOkW insertDirectoriesOkW builderFullSongsW
      newSongW newDirectoryW).2.2.1
      (by simp only [builderFullSongsW, List.length_replicate, INDEX_BUILDING_INSERT_BUFFER_SIZE, le_refl]) rfl,
   (push_song_buffer_bound insertSongsOkW insertDirectoriesFailW
      builderFullDirectoriesW newSongW newDirectoryW).2.2.2.2.2.1 "boom"
      (by simp only [builderFullDirectoriesW, List.length_replicate, INDEX_BUILDING_INSERT_BUFFER_SIZE, le_refl]) rfl,
   (push_song_buffer_bound insertSongsOkW insertDirectoriesOkW builderEmptyW
      newSongW newDirectoryW).2.2.2.2.1 (by decide)⟩

/-- Lemma: `virtualize_directory` touches only `path` and `artwork`. -/
theorem virtualize_directory_fields {vfs : VFS} {d d' : Directory}
    (h : virtualize_directory vfs d = some d') :
    d'.album = d.album ∧ d'.date_added = d.date_added ∧ d'.parent = d.parent := by
  unfold virtualize_directory at h
  rcases hp : real_to_virtual vfs d.path with _ | p <;> rw [hp] at h
  · simp at h
  · rcases ha : d.artwork with _ | a <;> simp [ha] at h <;> subst h <;> simp

/-- Lemma: `virtualize_song` touches only `path` and `artwork`. -/
theorem virtualize_song_fields {vfs : VFS} {s s' : Song}
    (h : virtualize_song vfs s = some s') :
    s'.title = s.title ∧ s'.album = s.album ∧ s'.parent = s.parent := by
  unfold virtualize_song at h
  rcases hp : real_to_virtual vfs s.path with _ | p <;> rw [hp] at h
  · simp at h
  · rcases ha : s.artwork with _ | a <;> simp [ha] at h <;> subst h <;> simp

/-- Claim C8: `get_recent_albums n` (for a non-negative limit, as diesel's
`LIMIT` takes an `i64`) returns at most `n` directory rows, all with a
non-null `album`, in non-increasing `date_added` order. -/
theorem get_recent_albums_spec (vfs : VFS) (db : Catalog) (count : Int)
    (h : 0 ≤ count) :
    (get_recent_albums vfs db count).length ≤ count.toNat ∧
    (∀ d ∈ get_recent_albums vfs db count, d.album.isSome = true) ∧
    (get_recent_albums vfs db count).Pairwise
      (fun a b => b.date_added ≤ a.date_added) := by
  have hlim : sqlLimit count
      ((db.directories.filter (fun d => d.album.isSome)).mergeSort
        (fun a b => decide (b.date_added ≤ a.date_added))) =
      ((db.directories.filter (fun d => d.album.isSome)).mergeSort
        (fun a b => decide (b.date_added ≤ a.date_added))).take count.toNat := by
    simp [sqlLimit, Int.not_lt.mpr h]
  refine ⟨?_, ?_, ?_⟩
  · calc (get_recent_albums vfs db count).length
        ≤ (sqlLimit count ((db.directories.filter (fun d => d.album.isSome)).mergeSort
            (fun a b => decide (b.date_added ≤ a.date_added)))).length :=
          List.length_filterMap_le _ _
      _ ≤ count.toNat := by rw [hlim]; exact List.length_take_le _ _
  · intro d hd
    rw [get_recent_albums] at hd
    rcases List.mem_filterMap.mp hd with ⟨d₀, hd₀, hv⟩
    rw [hlim] at hd₀
    have hmem : d₀ ∈ (db.directories.filter (fun d => d.album.isSome)).mergeSort
        (fun a b => decide (b.date_added ≤ a.date_added)) :=
      (List.take_sublist _ _).mem hd₀
    have hmem2 : d₀ ∈ db.directories.filter (fun d => d.album.isSome) :=
      (List.mergeSort_perm _ _).mem_iff.mp hmem
    have halb : d₀.album.isSome = true := (List.mem_filter.mp hmem2).2
    rw [(virtualize_directory_fields hv).1]
    exact halb
  · rw [get_recent_albums]
    have hsorted : ((db.directories.filter (fun d => d.album.isSome)).mergeSort
        (fun a b => decide (b.date_added ≤ a.date_added))).Pairwise
        (fun a b => decide (b.date_added ≤ a.date_added) = true) :=
      List.sorted_mergeSort
        (by intro a b c hab hbc; simp only [decide_eq_true_eq] at *; omega)
        (by intro a b; simp only [Bool.or_eq_true, decide_eq_true_eq]; omega) _
    have htake := hsorted.sublist (List.take_sublist count.toNat _)
    rw [hlim]
    refine List.Pairwise.filterMap (virtualize_directory vfs) ?_ htake
    intro a a' hr b hb b' hb'
    have h1 := (virtualize_directory_fields hb).2.1
    have h2 := (virtualize_directory_fields hb').2.1
    simp only [decide_eq_true_eq] at hr
    omega

/-- Witness for Claim C8 at the concrete two-album catalog `dbRecentW` with
limit 2. -/
theorem get_recent_albums_spec_witness :
    (0 : Int) ≤ 2 ∧
    ((get_recent_albums vfsW dbRecentW 2).length ≤ (2 : Int).toNat ∧
      (∀ d ∈ get_recent_albums vfsW dbRecentW 2, d.album.isSome = true) ∧
      (get_recent_albums vfsW dbRecentW 2).Pairwise
        (fun a b => b.date_added ≤ a.date_added)) :=
  ⟨by decide, get_recent_albums_spec vfsW dbRecentW 2 (by decide)⟩

/-- Claim C3 counterexample: the mount-root directory `rootReal` (NULL parent)
has a path matching `%Real%` and virtualizes, yet `search` returns nothing —
in SQL, `NULL NOT LIKE pat` is NULL, so the `parent NOT LIKE '%q%'` filter
rejects rows with a NULL parent instead of accepting them. -/
theorem search_mount_root_excluded :
    likeMatch "%Real%" dirMountRootW.path = true ∧
    dirMountRootW.parent = none ∧
    (virtualize_directory vfsSearchW dirMountRootW).isSome = true ∧
    search vfsSearchW dbSearchW "Real" = [] := by decide

/-- Claim C3 as amended: `search q` returns exactly the virtualizable directory
rows whose path matches `%q%` and whose parent is *non-null* and does not
match `%q%`, together with the virtualizable song rows with a matching
`path`/`title`/`album`/`artist`/`album_artist` and a parent not matching
`%q%`; a directory with a NULL parent (a mount root) is never returned,
because SQL `NULL NOT LIKE` is not true. -/
theorem search_characterization (vfs : VFS) (db : Catalog) (q : String) :
    (∀ d : Directory,
      CollectionFile.Directory d ∈ search vfs db q ↔
        ∃ d₀, d₀ ∈ db.directories ∧
          likeMatch ("%" ++ q ++ "%") d₀.path = true ∧
          (∃ p, d₀.parent = some p ∧ likeMatch ("%" ++ q ++ "%") p = false) ∧
          virtualize_directory vfs d₀ = some d) ∧
    (∀ s : Song,
      CollectionFile.Song s ∈ search vfs db q ↔
        ∃ s₀, s₀ ∈ db.songs ∧
          (likeMatch ("%" ++ q ++ "%") s₀.path = true ∨
            likeNullable ("%" ++ q ++ "%") s₀.title = true ∨
            likeNullable ("%" ++ q ++ "%") s₀.album = true ∨
            likeNullable ("%" ++ q ++ "%") s₀.artist = true ∨
            likeNullable ("%" ++ q ++ "%") s₀.album_artist = true) ∧
          likeMatch ("%" ++ q ++ "%") s₀.parent = false ∧
          virtualize_song vfs s₀ = some s) := by
  have hb : ∀ (pat : String) (o : Option String),
      notLikeNullable pat o = true ↔ ∃ p, o = some p ∧ likeMatch pat p = false := by
    intro pat o; cases o <;> simp [notLikeNullable]
  constructor
  · intro d
    simp only [search, List.mem_append, List.mem_map, List.mem_filterMap,
      List.mem_filter, Bool.and_eq_true, hb]
    constructor
    · rintro (⟨d', ⟨d₀, ⟨hm, hlike, p, hp, hpl⟩, hv⟩, heq⟩ | ⟨s', _, heq⟩)
      · injection heq with h; subst h; exact ⟨d₀, hm, hlike, ⟨p, hp, hpl⟩, hv⟩
      · cases heq
    · rintro ⟨d₀, hm, hlike, ⟨p, hp, hpl⟩, hv⟩
      exact Or.inl ⟨d, ⟨d₀, ⟨hm, hlike, p, hp, hpl⟩, hv⟩, rfl⟩
  · intro s
    simp only [search, List.mem_append, List.mem_map, List.mem_filterMap,
      List.mem_filter, Bool.and_eq_true, Bool.or_eq_true, Bool.not_eq_true',
      or_assoc]
    constructor
    · rintro (⟨d', _, heq⟩ | ⟨s', ⟨s₀, ⟨hm, hor, hpar⟩, hv⟩, heq⟩)
      · cases heq
      · injection heq with h; subst h; exact ⟨s₀, hm, hor, hpar, hv⟩
    · rintro ⟨s₀, hm, hor, hpar, hv⟩
      exact Or.inr ⟨s, ⟨s₀, ⟨hm, hor, hpar⟩, hv⟩, rfl⟩

/-- Concatenating the chunks gives back the chunked list (chunk size ≥ 1). -/
theorem chunksOf_flatten {α : Type} (n : Nat) (hn : 1 ≤ n) :
    ∀ l : List α, (chunksOf n l).flatten = l := by
  have main : ∀ (k : Nat) (l : List α), l.length ≤ k →
      (chunksOf n l).flatten = l := by
    intro k
    induction k with
    | zero =>
      intro l hl
      have : l = [] := List.eq_nil_of_length_eq_zero (Nat.le_zero.mp hl)
      subst this
      simp [chunksOf]
    | succ m ih =>
      intro l hl
      cases l with
      | nil => simp [chunksOf]
      | cons x xs =>
        rw [chunksOf, List.flatten_cons, ih _ ?_]
        · cases n with
          | zero => omega
          | succ j =>
            simp only [List.take_succ_cons, Nat.add_sub_cancel, List.cons_append,
              List.take_append_drop]
        · simp only [List.length_drop]
          simp only [List.length_cons] at hl
          omega
  intro l
  exact main l.length l le_rfl

/-- Every chunk produced by `chunksOf n` has at most `n` elements. -/
theorem chunksOf_mem_length_le {α : Type} (n : Nat) :
    ∀ (l : List α) (c : List α), c ∈ chunksOf n l → c.length ≤ n := by
  have main : ∀ (k : Nat) (l : List α), l.length ≤ k →
      ∀ c ∈ chunksOf n l, c.length ≤ n := by
    intro k
    induction k with
    | zero =>
      intro l hl
      have : l = [] := List.eq_nil_of_length_eq_zero (Nat.le_zero.mp hl)
      subst this
      simp [chunksOf]
    | succ m ih =>
      intro l hl
      cases l with
      | nil => intro c hc; simp [chunksOf] at hc
      | cons x xs =>
        intro c hc
        rw [chunksOf] at hc
        rcases List.mem_cons.mp hc with h1 | h2
        · subst h1; exact List.length_take_le _ _
        · refine ih _ ?_ c h2
          simp only [List.length_drop]
          simp only [List.length_cons] at hl
          omega
  intro l c hc
  exact main l.length l le_rfl c hc

/-- Membership after the chunked delete passes: a row survives iff its key is
in no issued chunk. -/
theorem foldl_filter_mem {β : Type} (key : β → String) :
    ∀ (chunks : List (List String)) (l : List β) (x : β),
      (x ∈ chunks.foldl
        (fun acc chunk => acc.filter (fun s => !(chunk.contains (key s)))) l) ↔
      (x ∈ l ∧ ∀ c ∈ chunks, ¬ key x ∈ c) := by
  intro chunks
  induction chunks with
  | nil => simp
  | cons c cs ih =>
    intro l x
    rw [List.foldl_cons, ih]
    simp only [List.mem_filter, List.forall_mem_cons, Bool.not_eq_true',
      List.contains, List.elem_eq_mem, decide_eq_false_iff_not, and_assoc]

/-- The chunked delete passes only remove rows. -/
theorem foldl_filter_sublist {β : Type} (key : β → String) :
    ∀ (chunks : List (List String)) (l : List β),
      (chunks.foldl
        (fun acc chunk => acc.filter (fun s => !(chunk.contains (key s)))) l).Sublist
        l := by
  intro chunks
  induction chunks with
  | nil => intro l; simp
  | cons c cs ih =>
    intro l
    exact (ih _).trans (List.filter_sublist l)

/-- One table's sweep: survivors are exactly the rows whose key fails the
staleness predicate. -/
theorem sweep_mem {β : Type} (key : β → String) (p : String → Bool) (n : Nat)
    (hn : 1 ≤ n) (l : List β) (x : β) :
    (x ∈ (chunksOf n ((l.map key).filter p)).foldl
        (fun acc chunk => acc.filter (fun s => !(chunk.contains (key s)))) l) ↔
      (x ∈ l ∧ p (key x) = false) := by
  rw [foldl_filter_mem]
  constructor
  · rintro ⟨hx, hall⟩
    refine ⟨hx, ?_⟩
    rcases hp : p (key x) with _ | _
    · rfl
    · have hmiss : key x ∈ (l.map key).filter p :=
        List.mem_filter.mpr ⟨List.mem_map.mpr ⟨x, hx, rfl⟩, hp⟩
      rw [← chunksOf_flatten n hn ((l.map key).filter p)] at hmiss
      rcases List.mem_flatten.mp hmiss with ⟨c, hc, hkc⟩
      exact absurd hkc (hall c hc)
  · rintro ⟨hx, hp⟩
    refine ⟨hx, fun c hc hkc => ?_⟩
    have hmiss : key x ∈ (chunksOf n ((l.map key).filter p)).flatten :=
      List.mem_flatten.mpr ⟨c, hc, hkc⟩
    rw [chunksOf_flatten n hn] at hmiss
    have := (List.mem_filter.mp hmiss).2
    rw [hp] at this
    cases this

/-- Claim C5: after `clean`, a song row is in the catalog iff it was there
before and its real path both exists and resolves through the VFS; likewise
for directory rows; surviving rows are unmodified (the results are sublists of
the original tables); and every issued delete chunk carries at most
`INDEX_BUILDING_CLEAN_BUFFER_SIZE = 500` paths. -/
theorem clean_characterization (fsExists : String → Bool) (vfs : VFS)
    (db : Catalog) :
    (clean fsExists vfs db).catalog.songs.Sublist db.songs ∧
    (clean fsExists vfs db).catalog.directories.Sublist db.directories ∧
    (∀ s : Song, s ∈ (clean fsExists vfs db).catalog.songs ↔
      s ∈ db.songs ∧ fsExists s.path = true ∧
        (real_to_virtual vfs s.path).isSome = true) ∧
    (∀ d : Directory, d ∈ (clean fsExists vfs db).catalog.directories ↔
      d ∈ db.directories ∧ fsExists d.path = true ∧
        (real_to_virtual vfs d.path).isSome = true) ∧
    (∀ c ∈ (clean fsExists vfs db).song_chunks,
      c.length ≤ INDEX_BUILDING_CLEAN_BUFFER_SIZE) ∧
    (∀ c ∈ (clean fsExists vfs db).directory_chunks,
      c.length ≤ INDEX_BUILDING_CLEAN_BUFFER_SIZE) := by
  have hbad : ∀ p : String,
      ((!(fsExists p) || (real_to_virtual vfs p).isNone) = false) ↔
        (fsExists p = true ∧ (real_to_virtual vfs p).isSome = true) := by
    intro p
    rcases hreal : real_to_virtual vfs p with _ | v <;>
      rcases hf : fsExists p with _ | _ <;> simp [hreal, hf]
  refine ⟨?_, ?_, ?_, ?_, ?_, ?_⟩
  · exact foldl_filter_sublist (fun s : Song => s.path) _ _
  · exact foldl_filter_sublist (fun d : Directory => d.path) _ _
  · intro s
    rw [show (clean fsExists vfs db).catalog.songs =
        (chunksOf INDEX_BUILDING_CLEAN_BUFFER_SIZE
          ((db.songs.map (fun s : Song => s.path)).filter
            (fun p => !(fsExists p) || (real_to_virtual vfs p).isNone))).foldl
          (fun acc chunk => acc.filter (fun s => !(chunk.contains s.path)))
          db.songs from rfl,
      sweep_mem (fun s : Song => s.path) _ INDEX_BUILDING_CLEAN_BUFFER_SIZE
        (by decide) db.songs s, hbad]
  · intro d
    rw [show (clean fsExists vfs db).catalog.directories =
        (chunksOf INDEX_BUILDING_CLEAN_BUFFER_SIZE
          ((db.directories.map (fun d : Directory => d.path)).filter
            (fun p => !(fsExists p) || (real_to_virtual vfs p).isNone))).foldl
          (fun acc chunk => acc.filter (fun d => !(chunk.contains d.path)))
          db.directories from rfl,
      sweep_mem (fun d : Directory => d.path) _ INDEX_BUILDING_CLEAN_BUFFER_SIZE
        (by decide) db.directories d, hbad]
  · intro c hc
    exact chunksOf_mem_length_le INDEX_BUILDING_CLEAN_BUFFER_SIZE _ c hc
  · intro c hc
    exact chunksOf_mem_length_le INDEX_BUILDING_CLEAN_BUFFER_SIZE _ c hc

/-- Witness for Claim C5 at the concrete catalog `dbCleanW`: the live song
survives `clean`, the vanished one does not — both facts through the
characterization's two directions. -/
theorem clean_characterization_witness :
    songArtW ∈ (clean fsExistsW vfsW dbCleanW).catalog.songs ∧
    ¬ songGoneW ∈ (clean fsExistsW vfsW dbCleanW).catalog.songs ∧
    dirArtW ∈ (clean fsExistsW vfsW dbCleanW).catalog.directories :=
  ⟨((clean_characterization fsExistsW vfsW dbCleanW).2.2.1 songArtW).mpr
      ⟨by decide, by decide, by decide⟩,
   fun h => by
    have := ((clean_characterization fsExistsW vfsW dbCleanW).2.2.1 songGoneW).mp h
    revert this
    decide,
   ((clean_characterization fsExistsW vfsW dbCleanW).2.2.2.1 dirArtW).mpr
      ⟨by decide, by decide, by decide⟩⟩

/-- Lemma: `virtualize_song` fails exactly on a non-translatable `path`; artwork
failures never make it fail. -/
theorem virtualize_song_eq_none_iff {vfs : VFS} {s : Song} :
    virtualize_song vfs s = none ↔ real_to_virtual vfs s.path = none := by
  unfold virtualize_song
  rcases hp : real_to_virtual vfs s.path with _ | p
  · simp [hp]
  · rcases ha : s.artwork with _ | a <;> simp [hp, ha]

/-- Lemma: `virtual_to_real` fails exactly when the first component matches no
mount. -/
theorem virtual_to_real_eq_none_iff (vfs : VFS) (vp : String) :
    virtual_to_real vfs vp = none ↔
      vfs.mounts.find? (fun m =>
        m.1 == String.mk (vp.data.takeWhile (fun c => !(c == '/')))) = none := by
  unfold virtual_to_real
  exact Option.map_eq_none'

/-- Claim C7: `get_song vp` fails with `unknownMount` exactly when `vp`'s first
component matches no mount, with `missingRow` exactly when the path translates
but no song row has that real path, and with `missingMapping` exactly when the
fetched song's real path cannot be virtualized; otherwise it returns the
(unique, by the `path UNIQUE` constraint) fetched song, virtualized.  Each
failure is a returned `QueryError`, i.e. propagates to the caller. -/
theorem get_song_characterization (vfs : VFS) (db : Catalog) (vp : String) :
    ((vfs.mounts.find? (fun m =>
        m.1 == String.mk (vp.data.takeWhile (fun c => !(c == '/')))) = none) ↔
      get_song vfs db vp = .error .unknownMount) ∧
    (∀ rp, virtual_to_real vfs vp = some rp →
      ((∀ s ∈ db.songs, s.path ≠ rp) ↔
        get_song vfs db vp = .error .missingRow) ∧
      (∀ s, db.songs.find? (fun x => x.path == rp) = some s →
        s ∈ db.songs ∧ s.path = rp ∧
        ((real_to_virtual vfs s.path = none) ↔
          get_song vfs db vp = .error .missingMapping) ∧
        (∀ s', virtualize_song vfs s = some s' ↔
          get_song vfs db vp = .ok s'))) := by
  rcases hvt : virtual_to_real vfs vp with _ | rp0
  · have hfind : vfs.mounts.find? (fun m =>
        m.1 == String.mk (vp.data.takeWhile (fun c => !(c == '/')))) = none :=
      (virtual_to_real_eq_none_iff vfs vp).mp hvt
    constructor
    · rw [hfind]
      simp only [true_iff]
      unfold get_song
      rw [hvt]
    · intro rp hrp
      simp at hrp
  · have hget : get_song vfs db vp =
        (match db.songs.find? (fun x => x.path == rp0) with
          | none => .error .missingRow
          | some real_song =>
            match virtualize_song vfs real_song with
            | some s => .ok s
            | none => .error .missingMapping) := by
      unfold get_song
      rw [hvt]
    have hne : get_song vfs db vp ≠ .error .unknownMount := by
      rw [hget]
      intro hcontra
      rcases hfs : db.songs.find? (fun x => x.path == rp0) with _ | s
      · rw [hfs] at hcontra
        simp at hcontra
      · rw [hfs] at hcontra
        rcases hv : virtualize_song vfs s with _ | s' <;> simp [hv] at hcontra
    have hfind_ne : vfs.mounts.find? (fun m =>
        m.1 == String.mk (vp.data.takeWhile (fun c => !(c == '/')))) ≠ none := by
      intro h
      have := (virtual_to_real_eq_none_iff vfs vp).mpr h
      rw [hvt] at this
      cases this
    refine ⟨iff_of_false hfind_ne hne, ?_⟩
    intro rp hrp
    obtain rfl : rp0 = rp := Option.some.inj hrp
    constructor
    · rcases hfs : db.songs.find? (fun x => x.path == rp0) with _ | s
      · refine iff_of_true ?_ (by rw [hget, hfs])
        intro s hs
        have := List.find?_eq_none.mp hfs s hs
        simpa using this
      · refine iff_of_false ?_ ?_
        · intro hall
          have hpath : s.path = rp0 := by
            have := List.find?_some hfs
            simpa using this
          exact hall s (List.mem_of_find?_eq_some hfs) hpath
        · rcases hv : virtualize_song vfs s with _ | s' <;>
            simp [hget, hfs, hv]
    · intro s hfs
      have hmem := List.mem_of_find?_eq_some hfs
      have hpath : s.path = rp0 := by
        have := List.find?_some hfs
        simpa using this
      refine ⟨hmem, hpath, ?_, ?_⟩
      · rcases hv : virtualize_song vfs s with _ | s'
        · exact iff_of_true (virtualize_song_eq_none_iff.mp hv)
            (by simp [hget, hfs, hv])
        · refine iff_of_false ?_ ?_
          · intro hrtv
            rw [virtualize_song_eq_none_iff.symm] at hrtv
            rw [hv] at hrtv
            cases hrtv
          · simp [hget, hfs, hv]
      · intro s'
        constructor
        · intro hv
          simp [hget, hfs, hv]
        · intro hres
          rw [hget, hfs] at hres
          rcases hv : virtualize_song vfs s with _ | t <;>
            simp [hv] at hres
          rw [hres]

/-- Witness for Claim C7 at the one-song catalog `dbSongArtW`: a successful
lookup, an unknown mount, and a missing row, each obtained through the
characterization. -/
theorem get_song_characterization_witness :
    get_song vfsW dbSongArtW "root/a.mp3" =
      .ok { songArtW with path := "root/a.mp3", artwork := none } ∧
    get_song vfsW dbSongArtW "zzz/a.mp3" = .error .unknownMount ∧
    get_song vfsW dbSongArtW "root/nope.mp3" = .error .missingRow :=
  ⟨((((get_song_characterization vfsW dbSongArtW "root/a.mp3").2 "r/a.mp3"
        (by decide)).2 songArtW (by decide)).2.2.2 _).mp (by decide),
   (get_song_characterization vfsW dbSongArtW "zzz/a.mp3").1.mp (by decide),
   (((get_song_characterization vfsW dbSongArtW "root/nope.mp3").2 "r/nope.mp3"
        (by decide)).1).mp (by decide)⟩

/-- A set inconsistency flag stays set. -/
theorem collapse_snd_true {α : Type} [DecidableEq α] :
    ∀ (vs : List α) (c : Option α), (collapse c true vs).2 = true := by
  intro vs
  induction vs with
  | nil => intro c; rfl
  | cons v ws ih =>
    intro c
    simp only [collapse, Bool.true_or]
    exact ih (some v)

/-- Values all equal to the current candidate never disturb the fold. -/
theorem collapse_all_eq {α : Type} [DecidableEq α] (x : α) :
    ∀ (vs : List α) (inc : Bool), (∀ a ∈ vs, a = x) →
      collapse (some x) inc vs = (some x, inc) := by
  intro vs
  induction vs with
  | nil => intro inc _; rfl
  | cons v ws ih =>
    intro inc h
    obtain rfl : v = x := h v (List.mem_cons_self v ws)
    simp only [collapse, Option.isSome_some, bne_self_eq_false, Bool.and_false,
      Bool.or_false, Bool.true_and]
    exact ih inc (fun a ha => h a (List.mem_cons_of_mem v ha))

/-- A supplied value differing from the current non-null candidate forces the
flag. -/
theorem collapse_ne_snd {α : Type} [DecidableEq α] (c0 : α) :
    ∀ (vs : List α) (inc : Bool) (v : α), v ∈ vs → v ≠ c0 →
      (collapse (some c0) inc vs).2 = true := by
  intro vs
  induction vs with
  | nil => intro inc v hv; cases hv
  | cons w ws ih =>
    intro inc v hv hne
    rcases List.mem_cons.mp hv with rfl | hmem
    · have hbne : (some c0 != some v) = true := by
        rw [bne_iff_ne]
        intro h
        exact hne (Option.some.inj h).symm
      simp only [collapse, hbne, Option.isSome_some, Bool.true_and, Bool.or_true]
      exact collapse_snd_true ws (some v)
    · by_cases hw : w = c0
      · subst hw
        simp only [collapse, Option.isSome_some, bne_self_eq_false, Bool.and_false,
          Bool.or_false, Bool.true_and]
        exact ih inc v hmem hne
      · have hbne : (some c0 != some w) = true := by
          rw [bne_iff_ne]
          intro h
          exact hw (Option.some.inj h).symm
        simp only [collapse, hbne, Option.isSome_some, Bool.true_and, Bool.or_true]
        exact collapse_snd_true ws (some w)

/-- Two distinct supplied values force the flag. -/
theorem collapse_distinct_snd {α : Type} [DecidableEq α] (vs : List α) (a b : α)
    (ha : a ∈ vs) (hb : b ∈ vs) (hne : a ≠ b) :
    (collapse (none : Option α) false vs).2 = true := by
  cases vs with
  | nil => cases ha
  | cons w ws =>
    have hstep : collapse (none : Option α) false (w :: ws) =
        collapse (some w) false ws := by
      simp [collapse]
    rw [hstep]
    rcases List.mem_cons.mp ha with rfl | ha2
    · rcases List.mem_cons.mp hb with rfl | hb2
      · exact absurd rfl hne
      · exact collapse_ne_snd a ws false b hb2 (Ne.symm hne)
    · by_cases haw : a = w
      · subst haw
        rcases List.mem_cons.mp hb with rfl | hb2
        · exact absurd rfl hne
        · exact collapse_ne_snd a ws false b hb2 (Ne.symm hne)
      · exact collapse_ne_snd w ws false a ha2 haw

/-- No supplied value: null aggregate. -/
theorem aggValue_nil {α : Type} [DecidableEq α] : aggValue ([] : List α) = none :=
  rfl

/-- All supplied values agree: the aggregate is that value. -/
theorem aggValue_all_eq {α : Type} [DecidableEq α] (x : α) (vs : List α)
    (h0 : vs ≠ []) (h : ∀ a ∈ vs, a = x) : aggValue vs = some x := by
  cases vs with
  | nil => exact absurd rfl h0
  | cons v ws =>
    obtain rfl : v = x := h v (List.mem_cons_self v ws)
    unfold aggValue
    have hstep : collapse (none : Option α) false (v :: ws) =
        collapse (some v) false ws := by
      simp [collapse]
    rw [hstep, collapse_all_eq v ws false (fun a ha => h a (List.mem_cons_of_mem v ha))]
    rfl

/-- Two distinct supplied values: null aggregate. -/
theorem aggValue_distinct {α : Type} [DecidableEq α] (vs : List α) (a b : α)
    (ha : a ∈ vs) (hb : b ∈ vs) (hne : a ≠ b) : aggValue vs = none := by
  unfold aggValue
  have := collapse_distinct_snd vs a b ha hb hne
  simp [this]

/-- The enumeration loop only appends to the pushed-song list, one `NewSong`
per readable file. -/
theorem scan_children_songs (ps : String) (aw : Option String) :
    ∀ (es : List DirEntry) (acc : DirScan),
      (scan_children ps aw acc es).songs = acc.songs ++ emittedSongs ps aw es := by
  intro es
  induction es with
  | nil => intro acc; simp [scan_children, emittedSongs]
  | cons e rest ih =>
    intro acc
    cases e with
    | readErr => simp [scan_children, emittedSongs]
    | subdir q => simp [scan_children, emittedSongs, ih]
    | file fp tagsOpt =>
      cases tagsOpt with
      | none => simp [scan_children, emittedSongs, ih]
      | some tags =>
        simp only [scan_children, emittedSongs]
        rw [ih]
        simp [apply_ite DirScan.songs]

/-- The album accumulator of the loop is the `collapse` fold of the emitted
songs' album values. -/
theorem scan_children_album (ps : String) (aw : Option String) :
    ∀ (es : List DirEntry) (acc : DirScan),
      ((scan_children ps aw acc es).directory_album,
        (scan_children ps aw acc es).inconsistent_directory_album) =
      collapse acc.directory_album acc.inconsistent_directory_album
        ((emittedSongs ps aw es).filterMap NewSong.album) := by
  intro es
  induction es with
  | nil => intro acc; simp [scan_children, emittedSongs, collapse]
  | cons e rest ih =>
    intro acc
    cases e with
    | readErr => simp [scan_children, emittedSongs, collapse]
    | subdir q =>
      simp only [scan_children, emittedSongs]
      rw [ih]
    | file fp tagsOpt =>
      cases tagsOpt with
      | none =>
        simp only [scan_children, emittedSongs]
        rw [ih]
      | some tags =>
        simp only [scan_children, emittedSongs, List.filterMap_cons]
        rw [ih]
        rcases hta : tags.album with _ | a <;>
          simp [hta, collapse, apply_ite DirScan.directory_album,
            apply_ite DirScan.inconsistent_directory_album]

/-- The year accumulator of the loop is the `collapse` fold of the emitted
songs' year values. -/
theorem scan_children_year (ps : String) (aw : Option String) :
    ∀ (es : List DirEntry) (acc : DirScan),
      ((scan_children ps aw acc es).directory_year,
        (scan_children ps aw acc es).inconsistent_directory_year) =
      collapse acc.directory_year acc.inconsistent_directory_year
        ((emittedSongs ps aw es).filterMap NewSong.year) := by
  intro es
  induction es with
  | nil => intro acc; simp [scan_children, emittedSongs, collapse]
  | cons e rest ih =>
    intro acc
    cases e with
    | readErr => simp [scan_children, emittedSongs, collapse]
    | subdir q =>
      simp only [scan_children, emittedSongs]
      rw [ih]
    | file fp tagsOpt =>
      cases tagsOpt with
      | none =>
        simp only [scan_children, emittedSongs]
        rw [ih]
      | some tags =>
        simp only [scan_children, emittedSongs, List.filterMap_cons]
        rw [ih]
        rcases hty : tags.year with _ | y <;>
          simp [hty, collapse, apply_ite DirScan.directory_year,
            apply_ite DirScan.inconsistent_directory_year]

/-- The artist accumulator of the loop is the `collapse` fold of the emitted
songs' artist contributions (`album_artist` when present, else `artist`). -/
theorem scan_children_artist (ps : String) (aw : Option String) :
    ∀ (es : List DirEntry) (acc : DirScan),
      ((scan_children ps aw acc es).directory_artist,
        (scan_children ps aw acc es).inconsistent_directory_artist) =
      collapse acc.directory_artist acc.inconsistent_directory_artist
        ((emittedSongs ps aw es).filterMap
          (fun s => s.album_artist <|> s.artist)) := by
  intro es
  induction es with
  | nil => intro acc; simp [scan_children, emittedSongs, collapse]
  | cons e rest ih =>
    intro acc
    cases e with
    | readErr => simp [scan_children, emittedSongs, collapse]
    | subdir q =>
      simp only [scan_children, emittedSongs]
      rw [ih]
    | file fp tagsOpt =>
      cases tagsOpt with
      | none =>
        simp only [scan_children, emittedSongs]
        rw [ih]
      | some tags =>
        simp only [scan_children, emittedSongs, List.filterMap_cons]
        rw [ih]
        rcases htaa : tags.album_artist with _ | aa <;>
          rcases htar : tags.artist with _ | ar <;>
          simp [htaa, htar, collapse, apply_ite DirScan.directory_artist,
            apply_ite DirScan.inconsistent_directory_artist]

/-- The emitted directory row's `album` is the collapse-aggregate of the
emitted songs' albums. -/
theorem populate_directory_album (pr : Option String) (ps : String)
    (aw : Option String) (cr : Int) (es : List DirEntry) :
    (populate_directory pr ps aw cr es).2.album =
      aggValue ((populate_directory pr ps aw cr es).1.filterMap NewSong.album) := by
  have hs := scan_children_album ps aw es
    { directory_album := none, directory_year := none, directory_artist := none
      inconsistent_directory_album := false, inconsistent_directory_year := false
      inconsistent_directory_artist := false, sub_directories := [], songs := [] }
  have hsongs := scan_children_songs ps aw es
    { directory_album := none, directory_year := none, directory_artist := none
      inconsistent_directory_album := false, inconsistent_directory_year := false
      inconsistent_directory_artist := false, sub_directories := [], songs := [] }
  simp only [populate_directory, hsongs, List.nil_append, aggValue]
  rw [← congrArg Prod.fst hs, ← congrArg Prod.snd hs]

/-- The emitted directory row's `year` is the collapse-aggregate of the
emitted songs' years. -/
theorem populate_directory_year (pr : Option String) (ps : String)
    (aw : Option String) (cr : Int) (es : List DirEntry) :
    (populate_directory pr ps aw cr es).2.year =
      aggValue ((populate_directory pr ps aw cr es).1.filterMap NewSong.year) := by
  have hs := scan_children_year ps aw es
    { directory_album := none, directory_year := none, directory_artist := none
      inconsistent_directory_album := false, inconsistent_directory_year := false
      inconsistent_directory_artist := false, sub_directories := [], songs := [] }
  have hsongs := scan_children_songs ps aw es
    { directory_album := none, directory_year := none, directory_artist := none
      inconsistent_directory_album := false, inconsistent_directory_year := false
      inconsistent_directory_artist := false, sub_directories := [], songs := [] }
  simp only [populate_directory, hsongs, List.nil_append, aggValue]
  rw [← congrArg Prod.fst hs, ← congrArg Prod.snd hs]

/-- The emitted directory row's `artist` is the collapse-aggregate of the
emitted songs' artist contributions. -/
theorem populate_directory_artist (pr : Option String) (ps : String)
    (aw : Option String) (cr : Int) (es : List DirEntry) :
    (populate_directory pr ps aw cr es).2.artist =
      aggValue ((populate_directory pr ps aw cr es).1.filterMap
        (fun s => s.album_artist <|> s.artist)) := by
  have hs := scan_children_artist ps aw es
    { directory_album := none, directory_year := none, directory_artist := none
      inconsistent_directory_album := false, inconsistent_directory_year := false
      inconsistent_directory_artist := false, sub_directories := [], songs := [] }
  have hsongs := scan_children_songs ps aw es
    { directory_album := none, directory_year := none, directory_artist := none
      inconsistent_directory_album := false, inconsistent_directory_year := false
      inconsistent_directory_artist := false, sub_directories := [], songs := [] }
  simp only [populate_directory, hsongs, List.nil_append, aggValue]
  rw [← congrArg Prod.fst hs, ← congrArg Prod.snd hs]

/-- Claim C2: for every directory pass of `populate_directory` and each
aggregate field in {album, year, artist} (a song's artist contribution being
its `album_artist` when present, else its `artist`): no supplied value gives a
null field; all supplied values equal gives that value; two distinct supplied
values give null. -/
theorem populate_directory_aggregate_collapse (pr : Option String) (ps : String)
    (aw : Option String) (cr : Int) (es : List DirEntry) :
    ((populate_directory pr ps aw cr es).1.filterMap NewSong.album = [] →
      (populate_directory pr ps aw cr es).2.album = none) ∧
    (∀ x : String,
      (populate_directory pr ps aw cr es).1.filterMap NewSong.album ≠ [] →
      (∀ a ∈ (populate_directory pr ps aw cr es).1.filterMap NewSong.album, a = x) →
      (populate_directory pr ps aw cr es).2.album = some x) ∧
    (∀ a b : String,
      a ∈ (populate_directory pr ps aw cr es).1.filterMap NewSong.album →
      b ∈ (populate_directory pr ps aw cr es).1.filterMap NewSong.album →
      a ≠ b → (populate_directory pr ps aw cr es).2.album = none) ∧
    ((populate_directory pr ps aw cr es).1.filterMap NewSong.year = [] →
      (populate_directory pr ps aw cr es).2.year = none) ∧
    (∀ x : Int,
      (populate_directory pr ps aw cr es).1.filterMap NewSong.year ≠ [] →
      (∀ a ∈ (populate_directory pr ps aw cr es).1.filterMap NewSong.year, a = x) →
      (populate_directory pr ps aw cr es).2.year = some x) ∧
    (∀ a b : Int,
      a ∈ (populate_directory pr ps aw cr es).1.filterMap NewSong.year →
      b ∈ (populate_directory pr ps aw cr es).1.filterMap NewSong.year →
      a ≠ b → (populate_directory pr ps aw cr es).2.year = none) ∧
    ((populate_directory pr ps aw cr es).1.filterMap
        (fun s => s.album_artist <|> s.artist) = [] →
      (populate_directory pr ps aw cr es).2.artist = none) ∧
    (∀ x : String,
      (populate_directory pr ps aw cr es).1.filterMap
        (fun s => s.album_artist <|> s.artist) ≠ [] →
      (∀ a ∈ (populate_directory pr ps aw cr es).1.filterMap
        (fun s => s.album_artist <|> s.artist), a = x) →
      (populate_directory pr ps aw cr es).2.artist = some x) ∧
    (∀ a b : String,
      a ∈ (populate_directory pr ps aw cr es).1.filterMap
        (fun s => s.album_artist <|> s.artist) →
      b ∈ (populate_directory pr ps aw cr es).1.filterMap
        (fun s => s.album_artist <|> s.artist) →
      a ≠ b → (populate_directory pr ps aw cr es).2.artist = none) := by
  refine ⟨fun h => ?_, fun x h0 h => ?_, fun a b ha hb hne => ?_,
    fun h => ?_, fun x h0 h => ?_, fun a b ha hb hne => ?_,
    fun h => ?_, fun x h0 h => ?_, fun a b ha hb hne => ?_⟩
  · rw [populate_directory_album, h, aggValue_nil]
  · rw [populate_directory_album]; exact aggValue_all_eq x _ h0 h
  · rw [populate_directory_album]; exact aggValue_distinct _ a b ha hb hne
  · rw [populate_directory_year, h, aggValue_nil]
  · rw [populate_directory_year]; exact aggValue_all_eq x _ h0 h
  · rw [populate_directory_year]; exact aggValue_distinct _ a b ha hb hne
  · rw [populate_directory_artist, h, aggValue_nil]
  · rw [populate_directory_artist]; exact aggValue_all_eq x _ h0 h
  · rw [populate_directory_artist]; exact aggValue_distinct _ a b ha hb hne

/-- Witness for Claim C2 on the concrete child stream `entriesW`: the two songs
disagree on album (`A` vs `B`) and on the artist contribution (`X` vs `Y`) but
agree on year (2000), so the emitted row has `album = none`, `artist = none`,
`year = some 2000`. -/
theorem populate_directory_aggregate_collapse_witness :
    (populate_directory (some "r") "r/d" (some "r/d/Folder.png") 7 entriesW).2.album =
      none ∧
    (populate_directory (some "r") "r/d" (some "r/d/Folder.png") 7 entriesW).2.artist =
      none ∧
    (populate_directory (some "r") "r/d" (some "r/d/Folder.png") 7 entriesW).2.year =
      some 2000 :=
  ⟨(populate_directory_aggregate_collapse (some "r") "r/d" (some "r/d/Folder.png")
      7 entriesW).2.2.1 "A" "B" (by decide) (by decide) (by decide),
   (populate_directory_aggregate_collapse (some "r") "r/d" (some "r/d/Folder.png")
      7 entriesW).2.2.2.2.2.2.2.2 "X" "Y" (by decide) (by decide) (by decide),
   (populate_directory_aggregate_collapse (some "r") "r/d" (some "r/d/Folder.png")
      7 entriesW).2.2.2.2.1 2000 (by decide) (by decide)⟩

/-- Binary string order is transitive. -/
theorem charListLe_trans :
    ∀ (a b c : List Char), charListLe a b = true → charListLe b c = true →
      charListLe a c = true := by
  intro a
  induction a with
  | nil => intro b c _ _; rfl
  | cons x as ih =>
    intro b c hab hbc
    cases b with
    | nil => simp [charListLe] at hab
    | cons y bs =>
      cases c with
      | nil => simp [charListLe] at hbc
      | cons z cs =>
        simp only [charListLe] at hab hbc ⊢
        by_cases hxy : x.toNat = y.toNat
        · rw [if_pos hxy] at hab
          by_cases hyz : y.toNat = z.toNat
          · rw [if_pos hyz] at hbc
            rw [if_pos (hxy.trans hyz)]
            exact ih bs cs hab hbc
          · rw [if_neg hyz] at hbc
            simp only [decide_eq_true_eq] at hbc
            rw [if_neg (by omega)]
            simp only [decide_eq_true_eq]
            omega
        · rw [if_neg hxy] at hab
          simp only [decide_eq_true_eq] at hab
          by_cases hyz : y.toNat = z.toNat
          · rw [if_neg (by omega)]
            simp only [decide_eq_true_eq]
            omega
          · rw [if_neg hyz] at hbc
            simp only [decide_eq_true_eq] at hbc
            rw [if_neg (by omega)]
            simp only [decide_eq_true_eq]
            omega

/-- Binary string order is total. -/
theorem charListLe_total :
    ∀ a b : List Char, charListLe a b = true ∨ charListLe b a = true := by
  intro a
  induction a with
  | nil => intro b; exact Or.inl rfl
  | cons x as ih =>
    intro b
    cases b with
    | nil => exact Or.inr rfl
    | cons y bs =>
      simp only [charListLe]
      by_cases hxy : x.toNat = y.toNat
      · rw [if_pos hxy, if_pos hxy.symm]
        exact ih bs
      · rw [if_neg hxy, if_neg (fun h => hxy h.symm)]
        simp only [decide_eq_true_eq]
        omega

/-- Claim C9 counterexample: `flatten("root/My_Album")` returns a song whose
real path is *not* a string-prefix extension of the translated path — SQL
`LIKE real || '%'` treats the `_` in the path as a single-character wildcard
(and matches case-insensitively), so the claim's "string prefix" reading is
wrong. -/
theorem flatten_like_not_prefix_counterexample :
    pathHasParent "root/My_Album" = true ∧
    virtual_to_real vfsLikeW "root/My_Album" = some "root/My_Album" ∧
    ("root/My_Album".data.isPrefixOf songLikeW.path.data) = false ∧
    flatten vfsLikeW dbLikeW "root/My_Album" = some [songLikeW] := by
  have hc : pathHasParent "root/My_Album" = true := by decide
  have hvt : virtual_to_real vfsLikeW "root/My_Album" = some "root/My_Album" := by
    decide
  have hfil : dbLikeW.songs.filter
      (fun s => likeMatch ("root/My_Album" ++ "%") s.path) = [songLikeW] := by
    decide
  refine ⟨hc, hvt, by decide, ?_⟩
  simp only [flatten, hc, if_true, hvt, hfil]
  rw [List.mergeSort_singleton]
  decide

/-- Claim C9 as amended: `flatten(vp)` with a parent component returns, in
binary real-path order, the virtualizable songs whose real path matches
`virtual_to_real(vp) || '%'` under SQL `LIKE` semantics (ASCII-case-insensitive,
with `_`/`%` in the translated path acting as wildcards — not plain string
prefixes); without a parent component it returns all virtualizable songs in
that order; a translation failure propagates. -/
theorem flatten_characterization (vfs : VFS) (db : Catalog) (vp : String) :
    (pathHasParent vp = true → virtual_to_real vfs vp = none →
      flatten vfs db vp = none) ∧
    (∀ rp, pathHasParent vp = true → virtual_to_real vfs vp = some rp →
      ∃ rs : List Song,
        rs.Pairwise (fun a b => charListLe a.path.data b.path.data = true) ∧
        rs.Perm (db.songs.filter (fun s => likeMatch (rp ++ "%") s.path)) ∧
        flatten vfs db vp = some (rs.filterMap (virtualize_song vfs))) ∧
    (pathHasParent vp = false →
      ∃ rs : List Song,
        rs.Pairwise (fun a b => charListLe a.path.data b.path.data = true) ∧
        rs.Perm db.songs ∧
        flatten vfs db vp = some (rs.filterMap (virtualize_song vfs))) := by
  have hsort : ∀ l : List Song,
      (l.mergeSort (fun a b => charListLe a.path.data b.path.data)).Pairwise
        (fun a b => charListLe a.path.data b.path.data = true) := by
    intro l
    exact @List.sorted_mergeSort Song (fun a b => charListLe a.path.data b.path.data)
      (fun a b c hab hbc => charListLe_trans _ _ _ hab hbc)
      (fun a b => by
        rcases charListLe_total a.path.data b.path.data with h | h <;> simp [h])
      l
  refine ⟨?_, ?_, ?_⟩
  · intro hpp hvt
    simp [flatten, hpp, hvt]
  · intro rp hpp hvt
    refine ⟨(db.songs.filter (fun s => likeMatch (rp ++ "%") s.path)).mergeSort
      (fun a b => charListLe a.path.data b.path.data), hsort _,
      List.mergeSort_perm _ _, ?_⟩
    simp [flatten, hpp, hvt]
  · intro hpp
    refine ⟨db.songs.mergeSort (fun a b => charListLe a.path.data b.path.data),
      hsort _, List.mergeSort_perm _ _, ?_⟩
    simp [flatten, hpp]

/-- Witness for Claim C9 (amended) at concrete inputs: a failing translation, a
translated prefix query, and the no-parent branch. -/
theorem flatten_characterization_witness :
    flatten vfsW dbSongArtW "zzz/x" = none ∧
    (∃ rs : List Song,
      rs.Pairwise (fun a b => charListLe a.path.data b.path.data = true) ∧
      rs.Perm (dbSongArtW.songs.filter
        (fun s => likeMatch ("r" ++ "%") s.path)) ∧
      flatten vfsW dbSongArtW "root" = some (rs.filterMap (virtualize_song vfsW))) ∧
    (∃ rs : List Song,
      rs.Pairwise (fun a b => charListLe a.path.data b.path.data = true) ∧
      rs.Perm dbSongArtW.songs ∧
      flatten vfsW dbSongArtW "" = some (rs.filterMap (virtualize_song vfsW))) :=
  ⟨(flatten_characterization vfsW dbSongArtW "zzz/x").1 (by decide) (by decide),
   (flatten_characterization vfsW dbSongArtW "root").2.1 "r" (by decide) (by decide),
   (flatten_characterization vfsW dbSongArtW "").2.2 (by decide)⟩

end Polaris

